import Mathlib

/-!
Verification of the valibot-effect parsing adapter (src/src/index.ts, and the
duplicate module embedded at the end of src/src/parse.test.ts, referred to
below as the ParseTs module).

The adapter delegates all validation to an external Validator (valibot) and
all scheduling to an external Effect runtime.  For a fixed schema, input and
config, the Validator's observable behaviour is captured by a `Validator`
record holding the outcome of each of its four entry points.  The Effect
values built by the adapter are embedded as a small description type `Eff`
whose nodes correspond one-to-one to the Effect combinators used in the
source (`Effect.try`, `Effect.tryPromise`, `Effect.suspend` over a
`v.safeParse` call, and `Effect.flatMap` over `Effect.promise` of a
`v.safeParseAsync` call).  Validator calls appear symbolically in the
descriptions, so the constructed values are independent of the Validator;
`runEff` interprets a description against a Validator and also returns the
trace of entry-point invocations performed during execution.
-/

namespace ValibotEffect

/-- Result record returned by the Validator's non-throwing entry points
(`v.safeParse` / `v.safeParseAsync`): a success flag together with either the
typed output or the issue sequence. -/
inductive SafeResult (α ι : Type) where
  | success (output : α)
  | failure (issues : List ι)
deriving DecidableEq, Repr

/-- The tagged failure class of src/src/index.ts:
`class ValiError extends Data.TaggedError("ValiError")<{ cause: ... }>`.
It has the single field `cause` holding the value thrown by the Validator. -/
structure ValiError (τ : Type) where
  cause : τ
deriving DecidableEq, Repr

/-- The fixed discriminant installed by `Data.TaggedError("ValiError")`. -/
def ValiError.tagOf {τ : Type} (_ : ValiError τ) : String := "ValiError"

/-- Dynamic success values: an adapter computation can succeed either with a
Validator output or, in the case of the index.ts `parseAsync`, with a raw
safe-parse result record (the resolved value of the `v.safeParseAsync`
promise). -/
inductive DynVal (α ι : Type) where
  | out (a : α)
  | res (r : SafeResult α ι)
deriving DecidableEq, Repr

/-- Typed failure values of the adapter computations: either a `ValiError`
wrapper (for `parse` / `parseAsync`) or a bare issue sequence
(for `safeParse` / `safeParseAsync`). -/
inductive ErrVal (ι τ : Type) where
  | wrapped (e : ValiError τ)
  | issues (l : List ι)
deriving DecidableEq, Repr

/-- The four Validator entry points the adapter may invoke. -/
inductive VCall where
  | parseCall
  | parseAsyncCall
  | safeParseCall
  | safeParseAsyncCall
deriving DecidableEq, Repr

/-- Observable behaviour of the Validator at one fixed (schema, input,
config) triple.  `parse` and `parseAsync` are the throwing entry points
(`Except.error` = thrown value / rejection reason); `safeParse` is the
non-throwing synchronous entry point (a result record); `safeParseAsync`
is the promise of a result record, which may still reject (for example when
a custom asynchronous check throws). -/
structure Validator (α ι τ : Type) where
  parse : Except τ α
  parseAsync : Except τ α
  safeParse : SafeResult α ι
  safeParseAsync : Except τ (SafeResult α ι)

/-- Deep embedding of the Effect values built by the adapter.  Each node is
one of the Effect-runtime combinator shapes used in the source; Validator
calls are symbolic (`VCall`), performed only by the interpreter `runEff`. -/
inductive Eff (α ι τ : Type) where
  /-- `Effect.succeed value`. -/
  | succeed (d : DynVal α ι)
  /-- `Effect.fail error`. -/
  | failE (e : ErrVal ι τ)
  /-- `Effect.try({ try: () => call(...), catch })`: runs the synchronous
  call; a returned value is the success, a thrown value goes through
  `catchFn` into the typed failure channel. -/
  | trySync (c : VCall) (catchFn : τ → ErrVal ι τ)
  /-- `Effect.tryPromise({ try: () => call(...), catch })`: awaits the
  promise; a resolution is the success, a rejection goes through `catchFn`
  into the typed failure channel. -/
  | tryPromise (c : VCall) (catchFn : τ → ErrVal ι τ)
  /-- `Effect.suspend(() => { const result = v.safeParse(...); return k(result) })`:
  defers the synchronous safe-parse call to execution time, then continues
  with the effect chosen by `k`. -/
  | suspendSafe (k : SafeResult α ι → Eff α ι τ)
  /-- `Effect.flatMap(Effect.promise(() => v.safeParseAsync(...)), k)`:
  awaits the safe-parse promise with no error mapping (`Effect.promise`
  turns a rejection into an untyped defect), then continues with `k`. -/
  | promiseSafeBind (k : SafeResult α ι → Eff α ι τ)

/-- Value produced by a symbolic Validator call: the thrown value on
`Except.error`, otherwise the output (throwing entry points) or the result
record (safe entry points). -/
def Validator.callResult {α ι τ : Type} (V : Validator α ι τ) :
    VCall → Except τ (DynVal α ι)
  | .parseCall => V.parse.map DynVal.out
  | .parseAsyncCall => V.parseAsync.map DynVal.out
  | .safeParseCall => Except.ok (DynVal.res V.safeParse)
  | .safeParseAsyncCall => V.safeParseAsync.map DynVal.res

/-- Trace of Validator entry-point invocations performed while executing a
computation. -/
abbrev Trace := List VCall

/-- Outcome of executing an adapter computation: success, typed failure, or
an untyped defect (a rejection lifted by `Effect.promise`, which performs no
error mapping). -/
inductive Exit (α ι τ : Type) where
  | succ (d : DynVal α ι)
  | fail (e : ErrVal ι τ)
  | die (defect : τ)
deriving DecidableEq, Repr

/-- Interpreter: executes an effect description against a Validator,
returning the invocation trace and the outcome. -/
def runEff {α ι τ : Type} (V : Validator α ι τ) : Eff α ι τ → Trace × Exit α ι τ
  | .succeed d => ([], .succ d)
  | .failE e => ([], .fail e)
  | .trySync c f =>
      ([c], match V.callResult c with
            | .ok d => .succ d
            | .error t => .fail (f t))
  | .tryPromise c f =>
      ([c], match V.callResult c with
            | .ok d => .succ d
            | .error t => .fail (f t))
  | .suspendSafe k =>
      let p := runEff V (k V.safeParse)
      (VCall.safeParseCall :: p.1, p.2)
  | .promiseSafeBind k =>
      match V.safeParseAsync with
      | .ok r =>
          let p := runEff V (k r)
          (VCall.safeParseAsyncCall :: p.1, p.2)
      | .error t => ([VCall.safeParseAsyncCall], .die t)

/-- Outcome of executing an effect description (trace discarded). -/
def runExit {α ι τ : Type} (V : Validator α ι τ) (e : Eff α ι τ) : Exit α ι τ :=
  (runEff V e).2

/-- The `catch` callback shared by `parse` and `parseAsync` in the source:
`(cause) => new ValiError({ cause: v.isValiError(cause) ? cause : (cause as any) })`.
The conditional is kept exactly as written (both branches store the raw
thrown value as `cause`). -/
def catchToValiError {ι τ : Type} (isValiError : τ → Bool) (cause : τ) :
    ErrVal ι τ :=
  ErrVal.wrapped ⟨if isValiError cause then cause else cause⟩

/- Embedding of src/src/index.ts. -/
namespace Index

/-- `parse` of src/src/index.ts: `Effect.try({ try: () => v.parse(schema, input, config), catch: ... })`. -/
def parse {α ι τ : Type} (isValiError : τ → Bool) : Eff α ι τ :=
  .trySync .parseCall (catchToValiError isValiError)

/-- `parseAsync` of src/src/index.ts:
`Effect.tryPromise({ try: () => v.safeParseAsync(schema, input, config), catch: ... })`.
Note that the tried promise is the NON-throwing `v.safeParseAsync`, exactly
as in the source. -/
def parseAsync {α ι τ : Type} (isValiError : τ → Bool) : Eff α ι τ :=
  .tryPromise .safeParseAsyncCall (catchToValiError isValiError)

/-- `safeParse` of src/src/index.ts: `Effect.suspend` around the
`v.safeParse` call, branching on `result.success`. -/
def safeParse {α ι τ : Type} : Eff α ι τ :=
  .suspendSafe fun result =>
    match result with
    | .success output => .succeed (.out output)
    | .failure issues => .failE (.issues issues)

/-- `safeParseAsync` of src/src/index.ts: `Effect.flatMap` of
`Effect.promise(() => v.safeParseAsync(...))`, branching on
`result.success`. -/
def safeParseAsync {α ι τ : Type} : Eff α ι τ :=
  .promiseSafeBind fun result =>
    match result with
    | .success output => .succeed (.out output)
    | .failure issues => .failE (.issues issues)

end Index

/- Embedding of the second module embedded at the end of
src/src/parse.test.ts (the documented `parse.ts` the tests import).  It is
identical to src/src/index.ts except in `parseAsync`. -/
namespace ParseTs

/-- `parse` of the ParseTs module (same text as in index.ts). -/
def parse {α ι τ : Type} (isValiError : τ → Bool) : Eff α ι τ :=
  .trySync .parseCall (catchToValiError isValiError)

/-- `parseAsync` of the ParseTs module:
`Effect.tryPromise({ try: () => v.parseAsync(schema, input, config), catch: ... })` —
it tries the THROWING asynchronous entry point. -/
def parseAsync {α ι τ : Type} (isValiError : τ → Bool) : Eff α ι τ :=
  .tryPromise .parseAsyncCall (catchToValiError isValiError)

/-- `safeParse` of the ParseTs module (same text as in index.ts). -/
def safeParse {α ι τ : Type} : Eff α ι τ :=
  .suspendSafe fun result =>
    match result with
    | .success output => .succeed (.out output)
    | .failure issues => .failE (.issues issues)

/-- `safeParseAsync` of the ParseTs module (same text as in index.ts). -/
def safeParseAsync {α ι τ : Type} : Eff α ι τ :=
  .promiseSafeBind fun result =>
    match result with
    | .success output => .succeed (.out output)
    | .failure issues => .failE (.issues issues)

end ParseTs

/-- A Validator contains no asynchronous-only logic: its asynchronous entry
points behave exactly like the synchronous ones (the async throwing parse has
the same outcome as the sync one, and the safe-parse promise resolves with
the synchronous safe-parse result). -/
def Validator.SyncOnly {α ι τ : Type} (V : Validator α ι τ) : Prop :=
  V.parseAsync = V.parse ∧ V.safeParseAsync = Except.ok V.safeParse

/-- Validator contract on a safe-parse result: the issue sequence is
non-empty whenever the success flag is unset. -/
def SafeResult.nonemptyIssues {α ι : Type} : SafeResult α ι → Prop
  | .success _ => True
  | .failure issues => issues ≠ []

/-- Validator contract on a safe-parse promise outcome: any resolved result
record has a non-empty issue sequence when failing. -/
def asyncNonemptyIssues {α ι τ : Type} : Except τ (SafeResult α ι) → Prop
  | .ok r => r.nonemptyIssues
  | .error _ => True

/-- Concrete recognized-error predicate: thrown value `7` is the Validator's
own structured error, every other thrown value is foreign. -/
def isVNat : Nat → Bool := fun t => t == 7

/-- Concrete Validator on which validation fails: the throwing entry points
throw the recognized error `7` and the safe entry points report the single
issue `3`.  It contains no asynchronous-only logic. -/
def Vfail : Validator Nat Nat Nat where
  parse := .error 7
  parseAsync := .error 7
  safeParse := .failure [3]
  safeParseAsync := .ok (.failure [3])

/-- Concrete Validator on which validation succeeds with output `5`.  It
contains no asynchronous-only logic. -/
def Vok : Validator Nat Nat Nat where
  parse := .ok 5
  parseAsync := .ok 5
  safeParse := .success 5
  safeParseAsync := .ok (.success 5)

/-- Concrete Validator whose throwing entry points throw the foreign value
`9` (not recognized by `isVNat`) and whose safe-parse promise also rejects
with `9`. -/
def Vdefect : Validator Nat Nat Nat where
  parse := .error 9
  parseAsync := .error 9
  safeParse := .failure [3]
  safeParseAsync := .error 9
/-- Execution of the `parse` computation, characterized by the Validator's
throwing synchronous entry point. -/
theorem runEff_parse {α ι τ : Type} (V : Validator α ι τ) (isV : τ → Bool) :
    runEff V (Index.parse (α := α) (ι := ι) isV) =
      ([VCall.parseCall],
        match V.parse with
        | .ok a => Exit.succ (DynVal.out a)
        | .error t => Exit.fail (ErrVal.wrapped ⟨t⟩)) := by
  cases h : V.parse <;>
    simp [runEff, Index.parse, Validator.callResult, Except.map,
      catchToValiError, h]

/-- Execution of the index.ts `parseAsync` computation, characterized by the
Validator's NON-throwing asynchronous entry point (the one the source
tries). -/
theorem runEff_parseAsyncIndex {α ι τ : Type} (V : Validator α ι τ)
    (isV : τ → Bool) :
    runEff V (Index.parseAsync (α := α) (ι := ι) isV) =
      ([VCall.safeParseAsyncCall],
        match V.safeParseAsync with
        | .ok r => Exit.succ (DynVal.res r)
        | .error t => Exit.fail (ErrVal.wrapped ⟨t⟩)) := by
  cases h : V.safeParseAsync <;>
    simp [runEff, Index.parseAsync, Validator.callResult, Except.map,
      catchToValiError, h]

/-- Execution of the ParseTs `parseAsync` computation, characterized by the
Validator's throwing asynchronous entry point. -/
theorem runEff_parseAsyncTs {α ι τ : Type} (V : Validator α ι τ)
    (isV : τ → Bool) :
    runEff V (ParseTs.parseAsync (α := α) (ι := ι) isV) =
      ([VCall.parseAsyncCall],
        match V.parseAsync with
        | .ok a => Exit.succ (DynVal.out a)
        | .error t => Exit.fail (ErrVal.wrapped ⟨t⟩)) := by
  cases h : V.parseAsync <;>
    simp [runEff, ParseTs.parseAsync, Validator.callResult, Except.map,
      catchToValiError, h]

/-- Execution of the `safeParse` computation, characterized by the
Validator's non-throwing synchronous entry point. -/
theorem runEff_safeParse {α ι τ : Type} (V : Validator α ι τ) :
    runEff V (Index.safeParse (α := α) (ι := ι) (τ := τ)) =
      ([VCall.safeParseCall],
        match V.safeParse with
        | .success o => Exit.succ (DynVal.out o)
        | .failure iss => Exit.fail (ErrVal.issues iss)) := by
  cases h : V.safeParse <;> simp [runEff, Index.safeParse, h]

/-- Execution of the `safeParseAsync` computation, characterized by the
Validator's non-throwing asynchronous entry point; a rejection of the
promise becomes an untyped defect. -/
theorem runEff_safeParseAsync {α ι τ : Type} (V : Validator α ι τ) :
    runEff V (Index.safeParseAsync (α := α) (ι := ι) (τ := τ)) =
      ([VCall.safeParseAsyncCall],
        match V.safeParseAsync with
        | .ok (.success o) => Exit.succ (DynVal.out o)
        | .ok (.failure iss) => Exit.fail (ErrVal.issues iss)
        | .error t => Exit.die t) := by
  cases h : V.safeParseAsync with
  | ok r => cases r <;> simp [runEff, Index.safeParseAsync, h]
  | error t => simp [runEff, Index.safeParseAsync, h]
/-- C1: the claim says that executing the computation returned by
`parseAsync` awaits the Validator's asynchronous THROWING parse entry point,
succeeding with a resolved value and failing with a "ValiError"-tagged
wrapper around a rejection reason.  src/src/index.ts instead tries the
non-throwing `v.safeParseAsync`: on the failing Validator `Vfail` (whose
throwing asynchronous entry point rejects with the recognized error `7`) the
computation SUCCEEDS with the raw result record, and even on the succeeding
Validator `Vok` it succeeds with the result record rather than the output;
the ParseTs module behaves as the claim states. -/
theorem parseAsync_succeeds_with_result_record :
    Vfail.parseAsync = Except.error 7 ∧
    runExit Vfail (Index.parseAsync isVNat) =
      Exit.succ (DynVal.res (SafeResult.failure [3])) ∧
    runExit Vok (Index.parseAsync isVNat) =
      Exit.succ (DynVal.res (SafeResult.success 5)) ∧
    runExit Vfail (ParseTs.parseAsync isVNat) =
      Exit.fail (ErrVal.wrapped ⟨7⟩) := by
  refine ⟨rfl, ?_, ?_, ?_⟩ <;> decide

/-- C2: the claim says that on a Validator with no asynchronous-only logic
the asynchronous variants produce results structurally identical to their
synchronous counterparts'.  On the sync-only Validators `Vfail` and `Vok`,
`safeParseAsync` does match `safeParse`, but the index.ts `parseAsync` does
not match `parse`: it lifts `v.safeParseAsync`, so it succeeds with the raw
result record where `parse` fails with a wrapped error (resp. succeeds with
the bare output). -/
theorem sync_async_divergence :
    Vfail.SyncOnly ∧ Vok.SyncOnly ∧
    runExit Vfail (Index.parseAsync isVNat) ≠ runExit Vfail (Index.parse isVNat) ∧
    runExit Vok (Index.parseAsync isVNat) ≠ runExit Vok (Index.parse isVNat) ∧
    runExit Vfail Index.safeParseAsync = runExit Vfail Index.safeParse ∧
    runExit Vok Index.safeParseAsync = runExit Vok Index.safeParse := by
  refine ⟨⟨rfl, rfl⟩, ⟨rfl, rfl⟩, ?_, ?_, ?_, ?_⟩ <;> decide

/-- C3: executing the computation returned by `parse` invokes the
Validator's throwing synchronous parse entry point exactly once; on a
returned value the computation succeeds with exactly that value, and on a
thrown value it fails with a freshly constructed wrapper tagged "ValiError"
whose `cause` field is exactly the thrown value. -/
theorem parse_behavior {α ι τ : Type} (V : Validator α ι τ) (isV : τ → Bool) :
    (runEff V (Index.parse (α := α) (ι := ι) isV)).1 = [VCall.parseCall] ∧
    (∀ a, V.parse = Except.ok a →
      runExit V (Index.parse isV) = Exit.succ (DynVal.out a)) ∧
    (∀ t, V.parse = Except.error t →
      runExit V (Index.parse isV) = Exit.fail (ErrVal.wrapped ⟨t⟩) ∧
      (ValiError.mk t).tagOf = "ValiError") := by
  refine ⟨by rw [runEff_parse], ?_, ?_⟩
  · intro a h
    rw [runExit, runEff_parse, h]
  · intro t h
    exact ⟨by rw [runExit, runEff_parse, h], rfl⟩

/-- Witness for C3: on the concrete failing Validator `Vfail`, `parse`
fails with the wrapper around the thrown value `7`. -/
theorem parse_behavior_witness :
    runExit Vfail (Index.parse isVNat) = Exit.fail (ErrVal.wrapped ⟨7⟩) ∧
    (ValiError.mk (7 : Nat)).tagOf = "ValiError" :=
  (parse_behavior Vfail isVNat).2.2 7 rfl

/-- C4: executing the computation returned by `safeParse` invokes the
Validator's non-throwing synchronous parse entry point exactly once and
succeeds with the result's output when its success flag is set; otherwise it
fails with the result's issue sequence itself, with no wrapper of any kind
around it. -/
theorem safeParse_behavior {α ι τ : Type} (V : Validator α ι τ) :
    (runEff V (Index.safeParse (α := α) (ι := ι) (τ := τ))).1 =
      [VCall.safeParseCall] ∧
    (∀ o, V.safeParse = SafeResult.success o →
      runExit V Index.safeParse = Exit.succ (DynVal.out o)) ∧
    (∀ iss, V.safeParse = SafeResult.failure iss →
      runExit V Index.safeParse = Exit.fail (ErrVal.issues iss)) := by
  refine ⟨by rw [runEff_safeParse], ?_, ?_⟩
  · intro o h
    rw [runExit, runEff_safeParse, h]
  · intro iss h
    rw [runExit, runEff_safeParse, h]

/-- Witness for C4: on `Vfail`, `safeParse` fails with the bare issue
sequence `[3]`. -/
theorem safeParse_behavior_witness :
    runExit Vfail Index.safeParse = Exit.fail (ErrVal.issues [3]) :=
  (safeParse_behavior Vfail).2.2 [3] rfl

/-- C5: the four adapter functions build computation values without invoking
the Validator — in this embedding `Index.parse`, `Index.parseAsync`,
`Index.safeParse` and `Index.safeParseAsync` are descriptions defined with
no reference to any Validator, so constructing them performs no validation
work and cannot throw — and executing each of them invokes exactly one
Validator entry point, at run time. -/
theorem adapters_defer_validation {α ι τ : Type} (V : Validator α ι τ)
    (isV : τ → Bool) :
    (runEff V (Index.parse (α := α) (ι := ι) isV)).1 = [VCall.parseCall] ∧
    (runEff V (Index.parseAsync (α := α) (ι := ι) isV)).1 =
      [VCall.safeParseAsyncCall] ∧
    (runEff V (Index.safeParse (α := α) (ι := ι) (τ := τ))).1 =
      [VCall.safeParseCall] ∧
    (runEff V (Index.safeParseAsync (α := α) (ι := ι) (τ := τ))).1 =
      [VCall.safeParseAsyncCall] := by
  exact ⟨by rw [runEff_parse], by rw [runEff_parseAsyncIndex],
    by rw [runEff_safeParse], by rw [runEff_safeParseAsync]⟩

/-- C6: a value thrown during execution of a `parse` computation, or a
rejection of the promise tried by the index.ts `parseAsync`, that is not
recognized by the recognized-error predicate is still wrapped into a
"ValiError"-tagged failure whose `cause` field is the raw value itself,
unmodified. -/
theorem unrecognized_thrown_wrapped_raw {α ι τ : Type} (V : Validator α ι τ)
    (isV : τ → Bool) (t : τ) (hrec : isV t = false)
    (hp : V.parse = Except.error t)
    (hq : V.safeParseAsync = Except.error t) :
    runExit V (Index.parse isV) = Exit.fail (ErrVal.wrapped ⟨t⟩) ∧
    runExit V (Index.parseAsync isV) = Exit.fail (ErrVal.wrapped ⟨t⟩) := by
  constructor
  · rw [runExit, runEff_parse, hp]
  · rw [runExit, runEff_parseAsyncIndex, hq]

/-- Witness for C6: `Vdefect` throws the foreign value `9`, which `isVNat`
does not recognize; both computations fail with a wrapper whose cause is the
raw `9`. -/
theorem unrecognized_thrown_wrapped_raw_witness :
    runExit Vdefect (Index.parse isVNat) = Exit.fail (ErrVal.wrapped ⟨9⟩) ∧
    runExit Vdefect (Index.parseAsync isVNat) = Exit.fail (ErrVal.wrapped ⟨9⟩) :=
  unrecognized_thrown_wrapped_raw Vdefect isVNat 9 rfl rfl rfl

/-- C7: on a schema/input pair where the Validator's non-throwing parse
succeeds (so, by the Validator's contract, the throwing parse returns the
same output), the computations returned by `parse` and by `safeParse` both
succeed when executed, with identical success values. -/
theorem parse_safeParse_agree_on_success {α ι τ : Type} (V : Validator α ι τ)
    (isV : τ → Bool) (a : α)
    (hsafe : V.safeParse = SafeResult.success a)
    (hthrow : V.parse = Except.ok a) :
    runExit V (Index.parse isV) = Exit.succ (DynVal.out a) ∧
    runExit V Index.safeParse = Exit.succ (DynVal.out a) := by
  constructor
  · rw [runExit, runEff_parse, hthrow]
  · rw [runExit, runEff_safeParse, hsafe]

/-- Witness for C7: on `Vok` both computations succeed with the output `5`. -/
theorem parse_safeParse_agree_on_success_witness :
    runExit Vok (Index.parse isVNat) = Exit.succ (DynVal.out 5) ∧
    runExit Vok Index.safeParse = Exit.succ (DynVal.out 5) :=
  parse_safeParse_agree_on_success Vok isVNat 5 rfl rfl

/-- C8: under the Validator contract that a failing safe-parse result
carries a non-empty issue sequence, whenever the computation returned by
`safeParse` (or `safeParseAsync`) fails, its failure value is an issue
sequence containing at least one element. -/
theorem safeParse_failure_nonempty {α ι τ : Type} (V : Validator α ι τ)
    (hs : V.safeParse.nonemptyIssues)
    (ha : asyncNonemptyIssues V.safeParseAsync) :
    (∀ l, runExit V Index.safeParse = Exit.fail (ErrVal.issues l) → l ≠ []) ∧
    (∀ l, runExit V Index.safeParseAsync = Exit.fail (ErrVal.issues l) →
      l ≠ []) := by
  constructor
  · intro l hl
    rw [runExit, runEff_safeParse] at hl
    cases h : V.safeParse with
    | success o => rw [h] at hl; simp at hl
    | failure iss =>
        rw [h] at hl
        simp only [Exit.fail.injEq, ErrVal.issues.injEq] at hl
        rw [h] at hs
        simp only [SafeResult.nonemptyIssues] at hs
        exact hl ▸ hs
  · intro l hl
    rw [runExit, runEff_safeParseAsync] at hl
    cases h : V.safeParseAsync with
    | ok r =>
        rw [h] at ha
        simp only [asyncNonemptyIssues] at ha
        cases r with
        | success o => rw [h] at hl; simp at hl
        | failure iss =>
            rw [h] at hl
            simp only [Exit.fail.injEq, ErrVal.issues.injEq] at hl
            simp only [SafeResult.nonemptyIssues] at ha
            exact hl ▸ ha
    | error t => rw [h] at hl; simp at hl

/-- Witness for C8: `Vfail` satisfies the non-emptiness contract, and the
issue sequence `[3]` with which its `safeParse` computation fails is indeed
non-empty. -/
theorem safeParse_failure_nonempty_witness :
    Vfail.safeParse.nonemptyIssues ∧ ([3] : List Nat) ≠ [] :=
  ⟨by simp [Vfail, SafeResult.nonemptyIssues],
   (safeParse_failure_nonempty Vfail
      (by simp [Vfail, SafeResult.nonemptyIssues])
      (by simp [Vfail, asyncNonemptyIssues, SafeResult.nonemptyIssues])).1
     [3] (by decide)⟩

/-- C9, counterexample: the index.ts module and the ParseTs module are not
extensionally equal — on the concrete Validator `Vfail` their `parseAsync`
definitions return computations that produce different results when
executed. -/
theorem modules_parseAsync_differ :
    runExit Vfail (Index.parseAsync isVNat) ≠
      runExit Vfail (ParseTs.parseAsync isVNat) := by
  decide

/-- C9, amended: `parse`, `safeParse` and `safeParseAsync` of
src/src/index.ts are extensionally equal to the functions of the same name
in the second module embedded at the end of src/src/parse.test.ts, but the
two `parseAsync` definitions are not: executing them invokes different
Validator entry points (index.ts tries the non-throwing `v.safeParseAsync`,
the second module the throwing `v.parseAsync`). -/
theorem modules_agree_except_parseAsync {α ι τ : Type} (V : Validator α ι τ)
    (isV : τ → Bool) :
    runEff V (Index.parse isV) = runEff V (ParseTs.parse isV) ∧
    runEff V (Index.safeParse (α := α)) = runEff V ParseTs.safeParse ∧
    runEff V (Index.safeParseAsync (α := α)) =
      runEff V ParseTs.safeParseAsync ∧
    (runEff V (Index.parseAsync isV)).1 = [VCall.safeParseAsyncCall] ∧
    (runEff V (ParseTs.parseAsync isV)).1 = [VCall.parseAsyncCall] :=
  ⟨rfl, rfl, rfl, by rw [runEff_parseAsyncIndex], by rw [runEff_parseAsyncTs]⟩

/-- C10: when the Validator's non-throwing asynchronous parse promise
rejects, the computation returned by `safeParseAsync` does not fail in its
declared issue-sequence error channel — the rejection escapes as an untyped
defect, because `Effect.promise` performs no error mapping. -/
theorem safeParseAsync_rejection_defects {α ι τ : Type} (V : Validator α ι τ)
    (t : τ) (h : V.safeParseAsync = Except.error t) :
    runExit V Index.safeParseAsync = Exit.die t := by
  rw [runExit, runEff_safeParseAsync, h]

/-- Witness for C10: `Vdefect`'s safe-parse promise rejects with `9` and the
`safeParseAsync` computation dies with exactly that defect. -/
theorem safeParseAsync_rejection_defects_witness :
    runExit Vdefect Index.safeParseAsync = Exit.die 9 :=
  safeParseAsync_rejection_defects Vdefect 9 rfl

end ValibotEffect
